import Mathlib

/-!
Shallow embedding of `lib/portage/sync/modules/webrsync/webrsync.py`.

The module implements webrsync-based repository syncing: `WebRsync.sync`
optionally verifies an OpenPGP key chain via gemato before delegating the
transfer to the external `emerge-webrsync` / `emerge-delta-webrsync` binary,
and `PyWebRsync.sync` is a declared-but-unimplemented native strategy.

External collaborators (the filesystem, gemato, the child process, the
option mapping) are modelled as oracle fields of a `World` record; the
side effects the specification talks about (keyring allocation and release,
process spawns, error logging, spawn-environment mutation) are recorded in
an explicit `Trace` / `SpawnKwargs` state threaded through the embedding.
-/

/-- Exception kinds that can arise inside `WebRsync.sync`.
`gemato` stands for `gemato.exceptions.GematoException`, `timeout` for
`asyncio.TimeoutError`, `osError` for an `OSError` raised when opening or
reading the key file, `notImpl` for `NotImplementedError`. -/
inductive Exc where
  | gemato
  | timeout
  | osError
  | notImpl
deriving DecidableEq, Repr

/-- The exception classes caught by the inner
`except (GematoException, asyncio.TimeoutError)` clause
(webrsync.py line 112). -/
def Exc.catchable : Exc → Bool
  | .gemato => true
  | .timeout => true
  | _ => false

/-- Rendering of an exception as the text interpolated into the
keyring-problem error message. -/
def Exc.text : Exc → String
  | .gemato => "GematoException"
  | .timeout => "TimeoutError"
  | .osError => "OSError"
  | .notImpl => "NotImplementedError"

/-- The `self.spawn_kwargs` dictionary: presence flags for the `uid`,
`gid` and `groups` keys (popped at webrsync.py lines 67-68) and the
`env` sub-dictionary handed to the child process. -/
structure SpawnKwargs where
  uid : Bool
  gid : Bool
  groups : Bool
  env : String → Option String

/-- Observable side effects of one `sync` call: keyring environments
created and closed, commands spawned, messages written at ERROR level via
`writemsg_level`, info output via `EOutput.einfo`, and calls to
`self.logger`. -/
structure Trace where
  envsCreated : Nat
  envsClosed : Nat
  spawns : List (List String)
  errorLog : List String
  infoLog : List String
  loggerCalls : List String
deriving DecidableEq, Repr

def emptyTrace : Trace :=
  { envsCreated := 0, envsClosed := 0, spawns := [], errorLog := [],
    infoLog := [], loggerCalls := [] }

def logErr (tr : Trace) (m : String) : Trace :=
  { tr with errorLog := tr.errorLog ++ [m] }

def logInfo (tr : Trace) (m : String) : Trace :=
  { tr with infoLog := tr.infoLog ++ [m] }

/-- Python dict assignment `sk["env"][k] = v`. -/
def SpawnKwargs.setEnv (sk : SpawnKwargs) (k v : String) : SpawnKwargs :=
  { sk with env := fun k2 => if k2 = k then some v else sk.env k2 }

/-- All inputs and oracle outcomes a single `WebRsync.sync` call can
observe.  Fallible collaborator calls (`open` + `import_key`,
`_refresh_keys`) are oracles returning `Except Exc Unit`. -/
structure World where
  findBinary : String → Option String
  versionOk : String → Bool
  moduleSpecificOptions : List (String × String)
  syncOpenpgpKeyPath : Option String
  keyPathIsFile : Bool
  gematoAvailable : Bool
  optsVerbose : Bool
  optsQuiet : Bool
  openKeyFile : Except Exc Unit
  importKeyResult : Except Exc Unit
  refreshKeysResult : Except Exc Unit
  openpgpHome : String
  spawnExitcode : Nat
  repoLocation : String

/-- Mutable instance attributes of a `WebRsync` object touched by
`has_bin`: `self._bin_command`, `self.bin_command` (the located path, or
`None`) and `self.bin_pkg` (the minimum-version requirement atom). -/
structure WState where
  binName : String
  bin_command : Option String
  bin_pkg : String
deriving DecidableEq, Repr

/-- Instance state set up by `WebRsync.__init__`, which calls
`SyncBase.__init__(self, "emerge-webrsync", ">=sys-apps/portage-2.3")`;
the base locates the binary with `portage.process.find_binary`. -/
def WebRsync.init (w : World) : WState :=
  { binName := "emerge-webrsync",
    bin_command := w.findBinary "emerge-webrsync",
    bin_pkg := ">=sys-apps/portage-2.3" }

/-- `self.repo.module_specific_options.get(key, dflt)`. -/
def getOpt (opts : List (String × String)) (key dflt : String) : String :=
  (opts.lookup key).getD dflt

/-- Python `str.lower()` (character-wise lowercasing; the option values
compared in this module are ASCII). -/
def strLower (s : String) : String := String.mk (s.data.map Char.toLower)

/-- The option-enabled test used uniformly at webrsync.py lines 45-51,
74-76 and 126-128:
`opts.get(key, "false").lower() in ("true", "yes")`. -/
def optEnabled (opts : List (String × String)) (key : String) : Bool :=
  let v := strLower (getOpt opts key "false")
  v == "true" || v == "yes"

/-- Python truthiness test `not self.repo.sync_openpgp_key_path`:
true when the attribute is `None` or the empty string. -/
def keyPathUnset : Option String → Bool
  | none => true
  | some s => s.isEmpty

/-- The configured key path as a string (only read on branches where it
is set). -/
def keyPathStr : Option String → String
  | none => ""
  | some s => s

/-- Modelled from the spec: `SyncBase.has_bin` is not under `src/`; per
the spec, binary resolution fails when the external tool cannot be
located or its minimum-version requirement is unmet. -/
def superHasBin (w : World) (st : WState) : Bool :=
  st.bin_command.isSome && w.versionOk st.bin_pkg

/-- `WebRsync.has_bin` (webrsync.py lines 43-56): a property read that,
as a side effect, substitutes the delta-capable binary and its version
requirement when `sync-webrsync-delta` is enabled and the substitution
has not happened yet, then defers to `SyncBase.has_bin`.  Returns the new
instance state and the boolean. -/
def has_bin_step (w : World) (st : WState) : WState × Bool :=
  let st1 :=
    if st.binName ≠ "emerge-delta-webrsync"
        ∧ optEnabled w.moduleSpecificOptions "sync-webrsync-delta" = true then
      { binName := "emerge-delta-webrsync",
        bin_command := w.findBinary "emerge-delta-webrsync",
        bin_pkg := ">=app-portage/emerge-delta-webrsync-3.7.5" }
    else st
  (st1, superHasBin w st1)

/-- `os.EX_OK`. -/
def EX_OK : Nat := 0

/-- The repository-scoped error message built at webrsync.py line 133. -/
def repoErrMsg (w : World) : String :=
  "!!! emerge-webrsync error in " ++ w.repoLocation

/-- The keyring-problem message written at webrsync.py lines 113-117. -/
def keyringErrMsg (e : Exc) : String :=
  "!!! Verification impossible due to keyring problem:\n" ++ e.text ++ "\n"

/-- The command vector built at webrsync.py lines 120-129: the binary
path, then `-v` if verbose else `-q` if quiet, then `-k` if
keep-snapshots is enabled. -/
def buildCmd (bin : String) (verbose quiet keep : Bool) : List String :=
  let c1 := [bin]
  let c2 := if verbose then c1 ++ ["-v"] else if quiet then c1 ++ ["-q"] else c1
  if keep then c2 ++ ["-k"] else c2

/-- Sequencing of the fallible steps inside the inner `try` block
(webrsync.py lines 105-111): open and read the key file, import the key,
refresh the keys. -/
def innerTry (w : World) : Except Exc Unit := do
  w.openKeyFile
  w.importKeyResult
  w.refreshKeysResult

/-- Result of the body of the outer `try` (everything the `finally`
wraps): the returned pair or a propagating exception, the spawn kwargs,
the trace, and whether `openpgp_env` is non-`None` at exit. -/
structure BodyOut where
  result : Except Exc (Nat × Bool)
  sk : SpawnKwargs
  tr : Trace
  alloc : Bool

/-- webrsync.py lines 120-137: build the command vector, spawn the child
process, interpret its exit status. -/
def afterVerify (w : World) (sk : SpawnKwargs) (tr : Trace) (bin : String)
    (verbose quiet alloc : Bool) : BodyOut :=
  let cmd := buildCmd bin verbose quiet
      (optEnabled w.moduleSpecificOptions "sync-webrsync-keep-snapshots")
  let tr1 := { tr with spawns := tr.spawns ++ [cmd] }
  let exitcode := w.spawnExitcode
  if exitcode ≠ EX_OK then
    let msg := repoErrMsg w
    let tr2 := { tr1 with loggerCalls := tr1.loggerCalls ++ [msg] }
    let tr3 := logErr tr2 (msg ++ "\n")
    { result := .ok (exitcode, false), sk := sk, tr := tr3, alloc := alloc }
  else
    { result := .ok (exitcode, true), sk := sk, tr := tr1, alloc := alloc }

/-- Body of the outer `try` block of `WebRsync.sync` (webrsync.py lines
74-137): the verification gate followed by command build, spawn and exit
status interpretation. -/
def syncBody (w : World) (sk : SpawnKwargs) (tr : Trace) (bin : String)
    (verbose quiet : Bool) : BodyOut :=
  if optEnabled w.moduleSpecificOptions "sync-webrsync-verify-signature" then
    if keyPathUnset w.syncOpenpgpKeyPath then
      { result := .ok (1, false), sk := sk,
        tr := logErr tr "!!! sync-openpgp-key-path is not set\n",
        alloc := false }
    else if ¬ w.keyPathIsFile then
      { result := .ok (1, false), sk := sk,
        tr := logErr tr ("!!! sync-openpgp-key-path file not found: "
          ++ keyPathStr w.syncOpenpgpKeyPath ++ "\n"),
        alloc := false }
    else if ¬ w.gematoAvailable then
      { result := .ok (1, false), sk := sk,
        tr := logErr tr
          "!!! Verifying against specified key requires gemato-14.5+ installed\n",
        alloc := false }
    else
      let tr1 := { tr with envsCreated := tr.envsCreated + 1 }
      let tr2 := if quiet then tr1 else
        logInfo tr1 ("Using keys from " ++ keyPathStr w.syncOpenpgpKeyPath)
      match innerTry w with
      | .ok () =>
          let sk2 := sk.setEnv "PORTAGE_GPG_DIR" w.openpgpHome
          let sk3 := sk2.setEnv "PORTAGE_TEMP_GPG_DIR" w.openpgpHome
          afterVerify w sk3 tr2 bin verbose quiet true
      | .error e =>
          if e.catchable then
            { result := .ok (1, false), sk := sk,
              tr := logErr tr2 (keyringErrMsg e), alloc := true }
          else
            { result := .error e, sk := sk, tr := tr2, alloc := true }
  else
    afterVerify w sk tr bin verbose quiet false

/-- The `finally` clause (webrsync.py lines 138-140): close the keyring
environment iff one was allocated, on every exit path. -/
def closeFinally (b : BodyOut) : BodyOut :=
  if b.alloc then
    { b with tr := { b.tr with envsClosed := b.tr.envsClosed + 1 } }
  else b

/-- Outcome of one `WebRsync.sync` call: the `(exit_code, success)` pair
(or a propagating exception), the final spawn kwargs, the side-effect
trace and the final instance state. -/
structure SyncOutcome where
  result : Except Exc (Nat × Bool)
  spawn_kwargs : SpawnKwargs
  trace : Trace
  state : WState

/-- `WebRsync.sync` (webrsync.py lines 58-140). -/
def WebRsync.sync (w : World) (st : WState) (sk : SpawnKwargs) : SyncOutcome :=
  let p := has_bin_step w st
  if ¬ p.2 then
    { result := .ok (1, false), spawn_kwargs := sk, trace := emptyTrace,
      state := p.1 }
  else
    let sk1 := { sk with uid := false, gid := false, groups := false }
    let b := closeFinally (syncBody w sk1 emptyTrace
      ((p.1).bin_command.getD "") w.optsVerbose w.optsQuiet)
    { result := b.result, spawn_kwargs := b.sk, trace := b.tr, state := p.1 }

/-- `PyWebRsync.sync` (webrsync.py lines 160-164): raises
`NotImplementedError` unconditionally, before touching anything. -/
def PyWebRsync.sync (_w : World) : Except Exc (Nat × Bool) × Trace :=
  (.error .notImpl, emptyTrace)

/-- Whether a sync outcome is a returned `(exit_code, success)` pair (as
opposed to a propagating exception). -/
def resultOk : Except Exc (Nat × Bool) → Bool
  | .ok _ => true
  | .error _ => false

/-- A spawn-kwargs dictionary with `uid`, `gid` and `groups` present and an
empty `env`. -/
def skEmpty : SpawnKwargs :=
  { uid := true, gid := true, groups := true, env := fun _ => none }

/-- A world in which verification is enabled, the key path is a present
file, gemato is available, but opening the key file raises `OSError`. -/
def wOsError : World :=
  { findBinary := fun _ => some "/usr/bin/emerge-webrsync",
    versionOk := fun _ => true,
    moduleSpecificOptions := [("sync-webrsync-verify-signature", "true")],
    syncOpenpgpKeyPath := some "/etc/portage/gnupg/key.asc",
    keyPathIsFile := true,
    gematoAvailable := true,
    optsVerbose := false,
    optsQuiet := false,
    openKeyFile := .error .osError,
    importKeyResult := .ok (),
    refreshKeysResult := .ok (),
    openpgpHome := "/tmp/gpg-home",
    spawnExitcode := 0,
    repoLocation := "/var/db/repos/gentoo" }

/-- A world in which verification is enabled but `sync-openpgp-key-path`
is unset. -/
def wKeyUnset : World :=
  { findBinary := fun _ => some "/usr/bin/emerge-webrsync",
    versionOk := fun _ => true,
    moduleSpecificOptions := [("sync-webrsync-verify-signature", "yes")],
    syncOpenpgpKeyPath := none,
    keyPathIsFile := false,
    gematoAvailable := false,
    optsVerbose := false,
    optsQuiet := false,
    openKeyFile := .ok (),
    importKeyResult := .ok (),
    refreshKeysResult := .ok (),
    openpgpHome := "/tmp/gpg-home",
    spawnExitcode := 0,
    repoLocation := "/var/db/repos/gentoo" }

/-- A world in which verification is enabled and all preconditions hold
but `_refresh_keys` times out. -/
def wRefreshTimeout : World :=
  { findBinary := fun _ => some "/usr/bin/emerge-webrsync",
    versionOk := fun _ => true,
    moduleSpecificOptions := [("sync-webrsync-verify-signature", "true")],
    syncOpenpgpKeyPath := some "/etc/portage/gnupg/key.asc",
    keyPathIsFile := true,
    gematoAvailable := true,
    optsVerbose := false,
    optsQuiet := false,
    openKeyFile := .ok (),
    importKeyResult := .ok (),
    refreshKeysResult := .error .timeout,
    openpgpHome := "/tmp/gpg-home",
    spawnExitcode := 0,
    repoLocation := "/var/db/repos/gentoo" }

/-- A world in which `sync-webrsync-verify-signature` is absent (and the
keep-snapshots option carries an unrecognized value). -/
def wNoVerify : World :=
  { findBinary := fun _ => some "/usr/bin/emerge-webrsync",
    versionOk := fun _ => true,
    moduleSpecificOptions := [("sync-webrsync-keep-snapshots", "1")],
    syncOpenpgpKeyPath := none,
    keyPathIsFile := false,
    gematoAvailable := false,
    optsVerbose := false,
    optsQuiet := false,
    openKeyFile := .ok (),
    importKeyResult := .ok (),
    refreshKeysResult := .ok (),
    openpgpHome := "/tmp/gpg-home",
    spawnExitcode := 0,
    repoLocation := "/var/db/repos/gentoo" }

/-- A world with verification disabled in which the child process exits
with code 5. -/
def wSpawnFail : World :=
  { findBinary := fun _ => some "/usr/bin/emerge-webrsync",
    versionOk := fun _ => true,
    moduleSpecificOptions := [],
    syncOpenpgpKeyPath := none,
    keyPathIsFile := false,
    gematoAvailable := false,
    optsVerbose := false,
    optsQuiet := false,
    openKeyFile := .ok (),
    importKeyResult := .ok (),
    refreshKeysResult := .ok (),
    openpgpHome := "/tmp/gpg-home",
    spawnExitcode := 5,
    repoLocation := "/var/db/repos/gentoo" }

/-- A world in which verification is enabled and every step of the gate
succeeds. -/
def wVerifyOk : World :=
  { findBinary := fun _ => some "/usr/bin/emerge-webrsync",
    versionOk := fun _ => true,
    moduleSpecificOptions := [("sync-webrsync-verify-signature", "yes")],
    syncOpenpgpKeyPath := some "/etc/portage/gnupg/key.asc",
    keyPathIsFile := true,
    gematoAvailable := true,
    optsVerbose := false,
    optsQuiet := false,
    openKeyFile := .ok (),
    importKeyResult := .ok (),
    refreshKeysResult := .ok (),
    openpgpHome := "/tmp/gpg-home",
    spawnExitcode := 0,
    repoLocation := "/var/db/repos/gentoo" }

/-- A world in which `sync-webrsync-delta` is enabled. -/
def wDeltaOn : World :=
  { findBinary := fun _ => some "/usr/bin/emerge-delta-webrsync",
    versionOk := fun _ => true,
    moduleSpecificOptions := [("sync-webrsync-delta", "true")],
    syncOpenpgpKeyPath := none,
    keyPathIsFile := false,
    gematoAvailable := false,
    optsVerbose := false,
    optsQuiet := false,
    openKeyFile := .ok (),
    importKeyResult := .ok (),
    refreshKeysResult := .ok (),
    openpgpHome := "/tmp/gpg-home",
    spawnExitcode := 0,
    repoLocation := "/var/db/repos/gentoo" }

/-- An instance state in which the delta-binary substitution has already
happened. -/
def stDelta : WState :=
  { binName := "emerge-delta-webrsync",
    bin_command := some "/usr/bin/emerge-delta-webrsync",
    bin_pkg := ">=app-portage/emerge-delta-webrsync-3.7.5" }

/-!
Helper lemmas about the phases of `WebRsync.sync`.
-/

/-- The post-gate phase creates no keyring environment. -/
theorem afterVerify_envsCreated (w : World) (sk : SpawnKwargs) (tr : Trace) (bin : String)
    (v q a : Bool) : (afterVerify w sk tr bin v q a).tr.envsCreated = tr.envsCreated := by
  unfold afterVerify
  dsimp only
  split <;> simp [logErr]

/-- The post-gate phase closes no keyring environment. -/
theorem afterVerify_envsClosed (w : World) (sk : SpawnKwargs) (tr : Trace) (bin : String)
    (v q a : Bool) : (afterVerify w sk tr bin v q a).tr.envsClosed = tr.envsClosed := by
  unfold afterVerify
  dsimp only
  split <;> simp [logErr]

/-- The post-gate phase passes the allocation flag through unchanged. -/
theorem afterVerify_alloc (w : World) (sk : SpawnKwargs) (tr : Trace) (bin : String)
    (v q a : Bool) : (afterVerify w sk tr bin v q a).alloc = a := by
  unfold afterVerify
  dsimp only
  split <;> simp [logErr]

/-- The post-gate phase does not mutate the spawn kwargs. -/
theorem afterVerify_sk (w : World) (sk : SpawnKwargs) (tr : Trace) (bin : String)
    (v q a : Bool) : (afterVerify w sk tr bin v q a).sk = sk := by
  unfold afterVerify
  dsimp only
  split <;> rfl

/-- The post-gate phase surfaces the child exit code verbatim, with
success iff it equals `os.EX_OK`. -/
theorem afterVerify_result (w : World) (sk : SpawnKwargs) (tr : Trace) (bin : String)
    (v q a : Bool) :
    (afterVerify w sk tr bin v q a).result =
      .ok (w.spawnExitcode, w.spawnExitcode == EX_OK) := by
  unfold afterVerify
  dsimp only
  by_cases h : w.spawnExitcode = EX_OK <;> simp [h]

/-- An exception escaping the inner `try` block comes from one of its
three fallible steps. -/
theorem innerTry_error_source (w : World) (e : Exc) (h : innerTry w = .error e) :
    w.openKeyFile = .error e ∨ w.importKeyResult = .error e ∨
    w.refreshKeysResult = .error e := by
  unfold innerTry at h
  cases ho : w.openKeyFile <;> cases hi : w.importKeyResult <;>
    cases hr : w.refreshKeysResult <;> simp_all [Bind.bind, Except.bind]

/-- The `finally` clause does not alter the returned result. -/
theorem closeFinally_result (b : BodyOut) : (closeFinally b).result = b.result := by
  unfold closeFinally
  split <;> rfl

/-- The `finally` clause does not alter the spawn kwargs. -/
theorem closeFinally_sk (b : BodyOut) : (closeFinally b).sk = b.sk := by
  unfold closeFinally
  split <;> rfl

/-!
Claim theorems.
-/

/-- C1: when `sync-webrsync-verify-signature` is enabled, `sync` checks the
preconditions in order (key path configured, key path an existing file,
gemato available) and fails fast on the first unmet one: the result is
exactly `(1, false)`, no process is spawned, no keyring environment is
allocated, and the only error logged names the first unmet condition. -/
theorem sync_gate_fails_fast (w : World) (st : WState) (sk : SpawnKwargs)
    (hb : (has_bin_step w st).2 = true)
    (hv : optEnabled w.moduleSpecificOptions "sync-webrsync-verify-signature" = true)
    (hfail : keyPathUnset w.syncOpenpgpKeyPath = true ∨ w.keyPathIsFile = false ∨
      w.gematoAvailable = false) :
    (WebRsync.sync w st sk).result = .ok (1, false) ∧
    (WebRsync.sync w st sk).trace.spawns = [] ∧
    (WebRsync.sync w st sk).trace.envsCreated = 0 ∧
    (WebRsync.sync w st sk).trace.errorLog =
      [if keyPathUnset w.syncOpenpgpKeyPath then
         "!!! sync-openpgp-key-path is not set\n"
       else if ¬ w.keyPathIsFile then
         "!!! sync-openpgp-key-path file not found: "
           ++ keyPathStr w.syncOpenpgpKeyPath ++ "\n"
       else
         "!!! Verifying against specified key requires gemato-14.5+ installed\n"] := by
  rcases hfail with h | h | h <;>
    by_cases h1 : keyPathUnset w.syncOpenpgpKeyPath = true <;>
    by_cases h2 : w.keyPathIsFile = true <;>
    simp_all [WebRsync.sync, syncBody, closeFinally, logErr, emptyTrace, hb, hv]

/-- Concrete instantiation of the preceding theorem. -/
theorem sync_gate_fails_fast_witness :
    (WebRsync.sync wKeyUnset (WebRsync.init wKeyUnset) skEmpty).result
      = Except.ok (1, false) :=
  (sync_gate_fails_fast wKeyUnset (WebRsync.init wKeyUnset) skEmpty (by rfl) (by rfl)
    (Or.inl (by rfl))).1

/-- C2: on every execution of `sync`, the number of keyring-environment
releases equals the number of allocations (release happens exactly once
when an environment was allocated, and is not attempted otherwise), and at
most one environment is allocated. -/
theorem sync_release_balanced (w : World) (st : WState) (sk : SpawnKwargs) :
    (WebRsync.sync w st sk).trace.envsClosed = (WebRsync.sync w st sk).trace.envsCreated ∧
    (WebRsync.sync w st sk).trace.envsCreated ≤ 1 := by
  by_cases hb : (has_bin_step w st).2 = true
  · by_cases hv : optEnabled w.moduleSpecificOptions "sync-webrsync-verify-signature" = true
    · by_cases h1 : keyPathUnset w.syncOpenpgpKeyPath = true <;>
      by_cases h2 : w.keyPathIsFile = true <;>
      by_cases h3 : w.gematoAvailable = true <;>
      cases hit : innerTry w <;>
      (try (rename_i e2; cases e2)) <;>
      by_cases hq : w.optsQuiet = true <;>
      simp_all [WebRsync.sync, syncBody, closeFinally, logErr, logInfo, emptyTrace,
        Exc.catchable, afterVerify_envsCreated, afterVerify_envsClosed, afterVerify_alloc]
    · simp_all [WebRsync.sync, syncBody, closeFinally, emptyTrace,
        afterVerify_envsCreated, afterVerify_envsClosed, afterVerify_alloc]
  · simp_all [WebRsync.sync, emptyTrace]

/-- C3 (counterexample): with verification enabled and all gate
preconditions met, an `OSError` raised while opening the configured key
file is not caught by the `except (GematoException, asyncio.TimeoutError)`
clause, so `sync` propagates the exception instead of returning an
`(exit_code, success)` pair. -/
theorem sync_propagates_oserror :
    (WebRsync.sync wOsError (WebRsync.init wOsError) skEmpty).result
      = Except.error Exc.osError ∧
    resultOk (WebRsync.sync wOsError (WebRsync.init wOsError) skEmpty).result = false := by
  exact ⟨rfl, rfl⟩

/-- C3 (amended): provided every failure of reading the key file, of the
key importing and of the key refreshing is of a kind the code catches (a
gemato exception or a timeout), `sync` returns a result pair rather than
propagating an exception; and any such failure inside the verification
phase yields exactly `(1, false)`. -/
theorem sync_total_when_failures_catchable (w : World) (st : WState) (sk : SpawnKwargs)
    (h1 : ∀ e, w.openKeyFile = .error e → e.catchable = true)
    (h2 : ∀ e, w.importKeyResult = .error e → e.catchable = true)
    (h3 : ∀ e, w.refreshKeysResult = .error e → e.catchable = true) :
    resultOk (WebRsync.sync w st sk).result = true ∧
    (∀ e, innerTry w = .error e → (has_bin_step w st).2 = true →
      optEnabled w.moduleSpecificOptions "sync-webrsync-verify-signature" = true →
      keyPathUnset w.syncOpenpgpKeyPath = false → w.keyPathIsFile = true →
      w.gematoAvailable = true →
      (WebRsync.sync w st sk).result = .ok (1, false)) := by
  have hcatch : ∀ e, innerTry w = .error e → e.catchable = true := by
    intro e he
    rcases innerTry_error_source w e he with h | h | h
    · exact h1 e h
    · exact h2 e h
    · exact h3 e h
  by_cases hb : (has_bin_step w st).2 = true
  · by_cases hv : optEnabled w.moduleSpecificOptions "sync-webrsync-verify-signature" = true
    · by_cases hk1 : keyPathUnset w.syncOpenpgpKeyPath = true <;>
      by_cases hk2 : w.keyPathIsFile = true <;>
      by_cases hk3 : w.gematoAvailable = true <;>
      cases hit : innerTry w <;>
      by_cases hq : w.optsQuiet = true <;>
      simp_all [WebRsync.sync, syncBody, closeFinally_result, logErr, logInfo, emptyTrace,
        afterVerify_result, resultOk]
    · simp_all [WebRsync.sync, syncBody, closeFinally_result, afterVerify_result, resultOk]
  · simp_all [WebRsync.sync, resultOk]

/-- Concrete instantiation of the preceding theorem. -/
theorem sync_total_when_failures_catchable_witness :
    (WebRsync.sync wRefreshTimeout (WebRsync.init wRefreshTimeout) skEmpty).result
      = Except.ok (1, false) :=
  (sync_total_when_failures_catchable wRefreshTimeout (WebRsync.init wRefreshTimeout)
      skEmpty (fun e h => by simp [wRefreshTimeout] at h)
      (fun e h => by simp [wRefreshTimeout] at h)
      (fun e h => by simp [wRefreshTimeout] at h; subst h; rfl)).2
    .timeout (by rfl) (by rfl) (by rfl) (by rfl) (by rfl) (by rfl)

/-- C4: when `sync-webrsync-verify-signature` is disabled (absent or any
value other than case-insensitive true/yes), no keyring environment is
created and the spawn environment entries `PORTAGE_GPG_DIR` and
`PORTAGE_TEMP_GPG_DIR` are left exactly as the caller provided them. -/
theorem sync_verify_disabled_frame (w : World) (st : WState) (sk : SpawnKwargs)
    (hv : optEnabled w.moduleSpecificOptions "sync-webrsync-verify-signature" = false) :
    (WebRsync.sync w st sk).trace.envsCreated = 0 ∧
    (WebRsync.sync w st sk).spawn_kwargs.env "PORTAGE_GPG_DIR"
      = sk.env "PORTAGE_GPG_DIR" ∧
    (WebRsync.sync w st sk).spawn_kwargs.env "PORTAGE_TEMP_GPG_DIR"
      = sk.env "PORTAGE_TEMP_GPG_DIR" := by
  by_cases hb : (has_bin_step w st).2 = true
  · simp_all [WebRsync.sync, syncBody, closeFinally, emptyTrace,
      afterVerify_envsCreated, afterVerify_alloc, afterVerify_sk]
  · simp_all [WebRsync.sync, emptyTrace]

/-- Concrete instantiation of the preceding theorem. -/
theorem sync_verify_disabled_frame_witness :
    (WebRsync.sync wNoVerify (WebRsync.init wNoVerify) skEmpty).trace.envsCreated = 0 :=
  (sync_verify_disabled_frame wNoVerify (WebRsync.init wNoVerify) skEmpty (by rfl)).1

/-- C5: for all combinations of the verbose, quiet and keep-snapshots
flags, the built command vector starts with the binary path; the tail
contains the verbose flag iff verbose is set, the quiet flag iff quiet is
set and verbose is not (so the two never both appear), and the
keep-snapshots flag iff that option is enabled, in which case it comes
last. -/
theorem buildCmd_spec (bin : String) (v q k : Bool) :
    (buildCmd bin v q k).head? = some bin ∧
    ("-v" ∈ (buildCmd bin v q k).tail ↔ v = true) ∧
    ("-q" ∈ (buildCmd bin v q k).tail ↔ (v = false ∧ q = true)) ∧
    ("-k" ∈ (buildCmd bin v q k).tail ↔ k = true) ∧
    ¬("-v" ∈ (buildCmd bin v q k).tail ∧ "-q" ∈ (buildCmd bin v q k).tail) ∧
    (k = true → (buildCmd bin v q k).getLast? = some "-k") := by
  cases v <;> cases q <;> cases k <;> simp [buildCmd]

/-- Concrete instantiation of the preceding theorem. -/
theorem buildCmd_spec_witness :
    "-k" ∈ (buildCmd "/usr/bin/emerge-webrsync" true true true).tail :=
  ((buildCmd_spec "/usr/bin/emerge-webrsync" true true true).2.2.2.1).mpr rfl

/-- C6: when the binary is available and the verification gate (if
enabled) passes, a child exit equal to `os.EX_OK` makes `sync` return
`(EX_OK, true)`; any other child code `c` is surfaced verbatim as
`(c, false)` and an error message naming the repository location is
logged at ERROR level exactly once. -/
theorem sync_exit_status (w : World) (st : WState) (sk : SpawnKwargs)
    (hb : (has_bin_step w st).2 = true)
    (hgate : optEnabled w.moduleSpecificOptions "sync-webrsync-verify-signature" = true →
      (keyPathUnset w.syncOpenpgpKeyPath = false ∧ w.keyPathIsFile = true ∧
       w.gematoAvailable = true ∧ innerTry w = .ok ())) :
    (w.spawnExitcode = EX_OK → (WebRsync.sync w st sk).result = .ok (w.spawnExitcode, true)) ∧
    (w.spawnExitcode ≠ EX_OK →
      (WebRsync.sync w st sk).result = .ok (w.spawnExitcode, false) ∧
      (WebRsync.sync w st sk).trace.errorLog.count (repoErrMsg w ++ "\n") = 1) := by
  by_cases hv : optEnabled w.moduleSpecificOptions "sync-webrsync-verify-signature" = true
  · obtain ⟨hk1, hk2, hk3, hit⟩ := hgate hv
    by_cases hq : w.optsQuiet = true <;>
    by_cases he : w.spawnExitcode = EX_OK <;>
    simp_all [WebRsync.sync, syncBody, afterVerify, closeFinally, logErr, logInfo,
      emptyTrace]
  · by_cases hq : w.optsQuiet = true <;>
    by_cases he : w.spawnExitcode = EX_OK <;>
    simp_all [WebRsync.sync, syncBody, afterVerify, closeFinally, logErr, logInfo,
      emptyTrace]

/-- Concrete instantiation of the preceding theorem. -/
theorem sync_exit_status_witness :
    (WebRsync.sync wSpawnFail (WebRsync.init wSpawnFail) skEmpty).result
      = Except.ok (5, false) :=
  ((sync_exit_status wSpawnFail (WebRsync.init wSpawnFail) skEmpty (by rfl)
      (fun h => absurd h (by decide))).2 (by decide)).1

/-- C7: a module option is treated as enabled iff its value, lowercased,
equals the literal string true or yes; any other value means disabled,
and an absent key behaves identically to the disabled default. -/
theorem optEnabled_spec (opts : List (String × String)) (key : String) :
    (optEnabled opts key = true ↔
      ∃ v, opts.lookup key = some v ∧
        (strLower v = "true" ∨ strLower v = "yes")) ∧
    (opts.lookup key = none → optEnabled opts key = false) := by
  unfold optEnabled getOpt
  cases h : opts.lookup key <;> simp [strLower]

/-- Concrete instantiation of the preceding theorem. -/
theorem optEnabled_spec_witness :
    optEnabled [("sync-webrsync-delta", "TRUE")] "sync-webrsync-delta" = true :=
  (optEnabled_spec [("sync-webrsync-delta", "TRUE")] "sync-webrsync-delta").1.mpr
    ⟨"TRUE", rfl, Or.inl (by rfl)⟩

/-- C8: with verification active and the gate preconditions met, the two
GPG-directory variables are injected into the spawn environment iff the
read/import/refresh sequence succeeds, and both are set to the keyring
environment home directory; if a step fails with a caught exception kind,
`sync` returns `(1, false)`, logs exactly the keyring-problem message, and
leaves both variables untouched. -/
theorem sync_gpg_env_injection (w : World) (st : WState) (sk : SpawnKwargs)
    (hb : (has_bin_step w st).2 = true)
    (hv : optEnabled w.moduleSpecificOptions "sync-webrsync-verify-signature" = true)
    (hk : keyPathUnset w.syncOpenpgpKeyPath = false)
    (hf : w.keyPathIsFile = true)
    (hg : w.gematoAvailable = true) :
    (innerTry w = .ok () →
      (WebRsync.sync w st sk).spawn_kwargs.env "PORTAGE_GPG_DIR" = some w.openpgpHome ∧
      (WebRsync.sync w st sk).spawn_kwargs.env "PORTAGE_TEMP_GPG_DIR" = some w.openpgpHome) ∧
    (∀ e, innerTry w = .error e → e.catchable = true →
      (WebRsync.sync w st sk).result = .ok (1, false) ∧
      (WebRsync.sync w st sk).trace.errorLog = [keyringErrMsg e] ∧
      (WebRsync.sync w st sk).spawn_kwargs.env "PORTAGE_GPG_DIR"
        = sk.env "PORTAGE_GPG_DIR" ∧
      (WebRsync.sync w st sk).spawn_kwargs.env "PORTAGE_TEMP_GPG_DIR"
        = sk.env "PORTAGE_TEMP_GPG_DIR") := by
  have hne : ("PORTAGE_GPG_DIR" : String) ≠ "PORTAGE_TEMP_GPG_DIR" := by decide
  constructor
  · intro hit
    by_cases hq : w.optsQuiet = true <;>
    simp_all [WebRsync.sync, syncBody, closeFinally_sk, closeFinally_result, logInfo,
      emptyTrace, afterVerify_sk, SpawnKwargs.setEnv, hne]
  · intro e hit hc
    by_cases hq : w.optsQuiet = true <;>
    simp_all [WebRsync.sync, syncBody, closeFinally, logErr, logInfo, emptyTrace]

/-- Concrete instantiation of the preceding theorem. -/
theorem sync_gpg_env_injection_witness :
    (WebRsync.sync wVerifyOk (WebRsync.init wVerifyOk) skEmpty).spawn_kwargs.env
        "PORTAGE_GPG_DIR" = some "/tmp/gpg-home" :=
  ((sync_gpg_env_injection wVerifyOk (WebRsync.init wVerifyOk) skEmpty (by rfl) (by rfl)
      (by rfl) (by rfl) (by rfl)).1 (by rfl)).1

/-- C9: `PyWebRsync.sync` raises `NotImplementedError` for every input and
allocates no resource and spawns no process before raising. -/
theorem pywebrsync_always_fails (w : World) :
    (PyWebRsync.sync w).1 = Except.error Exc.notImpl ∧
    (PyWebRsync.sync w).2.envsCreated = 0 ∧
    (PyWebRsync.sync w).2.spawns = [] := by
  exact ⟨rfl, rfl, rfl⟩

/-- C10: once the bound command has been substituted to the delta variant,
any subsequent read of `has_bin` leaves the selected binary command, its
located path and its version requirement unchanged. -/
theorem has_bin_delta_sub_idempotent (w : World) (st : WState)
    (h : st.binName = "emerge-delta-webrsync") :
    (has_bin_step w st).1 = st := by
  unfold has_bin_step
  simp [h]

/-- Concrete instantiation of the preceding theorem. -/
theorem has_bin_delta_sub_idempotent_witness :
    (has_bin_step wDeltaOn stDelta).1 = stDelta :=
  has_bin_delta_sub_idempotent wDeltaOn stDelta rfl
